import Mathlib

/-!
Verification of the StreamSnag frontend (`frontend/src/App.tsx`) against its
natural-language specification.  The React component's handlers are embedded
as pure Lean functions; the effectful handlers (`fetchVideoInfo`,
`handleDownload`) are embedded as functions from their inputs (component
state, the random draw, the settled HTTP response) to the ordered list of
effects they perform, and state updates are replayed by folding the effects
over an explicit state record.
-/

/-- `2^53`: `Math.random()` draws doubles of the form `k / 2^53` with
`0 ≤ k < 2^53`, so a draw is modelled by its numerator `k`. -/
def TWO53 : Nat := 9007199254740992

/-- Base-36 fractional digits of `n / 2^53`, by repeated multiplication.
27 steps always exhaust the expansion since `36^27 * n / 2^53` is integral. -/
def digits36Aux : Nat → Nat → List Nat
  | 0, _ => []
  | fuel + 1, n =>
    if n = 0 then [] else (n * 36 / TWO53) :: digits36Aux fuel (n * 36 % TWO53)

/-- The exact base-36 fractional expansion of `(n % 2^53) / 2^53`,
trailing zeros trimmed. -/
def frac36 (n : Nat) : List Nat := digits36Aux 27 (n % TWO53)

/-- The character JavaScript uses for base-36 digit `d` (lowercase). -/
def digitChar36 (d : Nat) : Char :=
  if d < 10 then Char.ofNat (48 + d) else Char.ofNat (87 + d)

/-- `x.toString(36)` for `x = n / 2^53`: `"0"` when the value is zero,
otherwise `"0."` followed by the base-36 digits of the fraction. -/
def jsToString36 (n : Nat) : String :=
  if n % TWO53 = 0 then "0"
  else String.mk ('0' :: '.' :: (frac36 n).map digitChar36)

/-- `s.substring(i)` in JavaScript: the suffix of `s` from index `i`. -/
def jsSubstring (s : String) (i : Nat) : String := String.mk (s.data.drop i)

/-- `Math.random().toString(36).substring(7)` from `handleDownload`
(App.tsx line 89), as a function of the draw's numerator `n`. -/
def genClientId (n : Nat) : String := jsSubstring (jsToString36 n) 7

/-! ## JavaScript primitives used by the component -/

/-- Uppercase hex digit. -/
def hexDigitChar (d : Nat) : Char :=
  if d < 10 then Char.ofNat (48 + d) else Char.ofNat (55 + d)

/-- `%XX` percent-escape of one byte. -/
def percentByte (b : Nat) : String :=
  String.mk ['%', hexDigitChar (b / 16 % 16), hexDigitChar (b % 16)]

/-- UTF-8 bytes of a code point. -/
def utf8Bytes (c : Char) : List Nat :=
  let n := c.toNat
  if n < 128 then [n]
  else if n < 2048 then [192 + n / 64, 128 + n % 64]
  else if n < 65536 then [224 + n / 4096, 128 + n / 64 % 64, 128 + n % 64]
  else [240 + n / 262144, 128 + n / 4096 % 64, 128 + n / 64 % 64, 128 + n % 64]

/-- The characters `encodeURIComponent` leaves unescaped. -/
def uriUnescaped (c : Char) : Bool :=
  c.isAlphanum || c ∈ ['-', '_', '.', '!', '~', '*', Char.ofNat 39, '(', ')']

/-- JavaScript's `encodeURIComponent`. -/
def encodeURIComponent (s : String) : String :=
  s.data.foldl
    (fun acc c =>
      acc ++ (if uriUnescaped c then String.mk [c]
              else String.join ((utf8Bytes c).map percentByte)))
    ""

/-- JavaScript truthiness of an optional string field: absent and `""` are
falsy, any other string truthy. -/
def jsTruthy : Option String → Bool
  | none => false
  | some s => !(s == "")

/-- `o || d` on an optional string field, as in `data.detail || "..."`. -/
def jsOrElse (o : Option String) (d : String) : String :=
  match o with
  | none => d
  | some s => if s == "" then d else s

/-! ## The component's data model (App.tsx lines 4-32, 60-65) -/

/-- `API_BASE = import.meta.env.VITE_API_URL || "http://localhost:8000"`,
at its default value. -/
def API_BASE : String := "http://localhost:8000"

/-- `base.replace(/^http/, "ws")`. -/
def replaceHttpByWs (s : String) : String :=
  if s.startsWith "http" then "ws" ++ jsSubstring s 4 else s

/-- `WS_BASE = API_BASE.replace(/^http/, "ws")`. -/
def WS_BASE : String := replaceHttpByWs API_BASE

/-- One entry of `VideoInfo.formats`.  The TypeScript interface declares
`resolution: string`, but the data comes from engine JSON where the field may
be `null` — which is why the source guards it with a truthiness check — so it
is modelled as an optional string. -/
structure VideoFormat where
  format_id : String
  format_note : String
  ext : String
  resolution : Option String
  filesize : Option Rat
  acodec : String
  vcodec : String
deriving DecidableEq, Repr

/-- The `VideoInfo` interface. -/
structure VideoInfo where
  id : String
  title : String
  thumbnail : String
  duration : Rat
  uploader : String
  formats : List VideoFormat
deriving DecidableEq, Repr

/-- The `downloadProgress` state shape.  Fields are optional because the
message handler builds it by object spread from a parsed JSON message, which
may omit fields. -/
structure PartialProgress where
  percent : Option Rat
  speed : Option Rat
  eta : Option Rat
  status : Option String
deriving DecidableEq, Repr

/-- `{ percent: 0, speed: 0, eta: 0, status: "starting" }` (line 86). -/
def startingProgress : PartialProgress :=
  ⟨some 0, some 0, some 0, some "starting"⟩

/-- `{ percent: 100, speed: 0, eta: 0, status: "completed" }` (line 117). -/
def completedProgress : PartialProgress :=
  ⟨some 100, some 0, some 0, some "completed"⟩

/-- The JSON body of the settled `/api/download` response, fields optional
as in parsed JSON.  `ok` is `response.ok`. -/
structure DownloadResponse where
  ok : Bool
  status : Option String
  download_url : Option String
  detail : Option String
  filename : Option String
deriving DecidableEq, Repr

/-- The settled `/api/info` response: `ok`, the parsed metadata on success,
and the optional `detail` field. -/
structure InfoResponse where
  ok : Bool
  data : VideoInfo
  detail : Option String
deriving DecidableEq, Repr

/-! ## Request URLs the client builds, and the URLs §6 of the spec names -/

/-- Path and query of the metadata request (App.tsx line 45). -/
def clientInfoPath (url : String) : String :=
  "/api/info?url=" ++ encodeURIComponent url

/-- Path of the progress-channel connection (App.tsx line 92). -/
def clientWsPath (token : String) : String :=
  "/api/ws/" ++ token

/-- Path and query of the download request (App.tsx line 106). -/
def clientDownloadPath (url fmt token : String) : String :=
  "/api/download?url=" ++ encodeURIComponent url
    ++ "&format_id=" ++ fmt ++ "&client_id=" ++ token

/-- Modelled from the spec: `GET /info?url=<string>` (§6). -/
def specInfoPath (url : String) : String :=
  "/info?url=" ++ encodeURIComponent url

/-- Modelled from the spec: the channel attach point `/ws/{token}` (§6). -/
def specWsPath (token : String) : String :=
  "/ws/" ++ token

/-- Modelled from the spec:
`GET /download?url=<string>&formatId=<string>&token=<string>` (§6). -/
def specDownloadPath (url fmt token : String) : String :=
  "/download?url=" ++ encodeURIComponent url
    ++ "&formatId=" ++ fmt ++ "&token=" ++ token

/-! ## Effects and the handlers as effect traces -/

/-- One observable effect of a handler run, in program order: React state
setters, the token draw, opening/closing the WebSocket, issuing an HTTP
request, navigating the browser, and scheduling the delayed progress
clear. -/
inductive Effect where
  | setLoading : Bool → Effect
  | setDownloading : Bool → Effect
  | setError : Option String → Effect
  | setVideoInfo : Option VideoInfo → Effect
  | setProgress : Option PartialProgress → Effect
  | genToken : String → Effect
  | wsOpen : String → Effect
  | fetchGet : String → Effect
  | navigate : String → Effect
  | wsClose : Effect
  | scheduleClearProgress : Effect
deriving DecidableEq, Repr

/-- The component state the replayed effects act on. -/
structure AppState where
  loading : Bool
  downloading : Bool
  error : Option String
  videoInfo : Option VideoInfo
  downloadProgress : Option PartialProgress
deriving DecidableEq, Repr

/-- How one effect updates the state (non-state effects leave it alone). -/
def applyEffect (s : AppState) : Effect → AppState
  | .setLoading b => { s with loading := b }
  | .setDownloading b => { s with downloading := b }
  | .setError e => { s with error := e }
  | .setVideoInfo v => { s with videoInfo := v }
  | .setProgress p => { s with downloadProgress := p }
  | _ => s

/-- Replay a trace over a state. -/
def runEffects (s : AppState) (l : List Effect) : AppState :=
  l.foldl applyEffect s

/-- JavaScript's `String.prototype.trim`: strip whitespace from both ends. -/
def jsTrim (s : String) : String :=
  String.mk
    (((s.data.dropWhile Char.isWhitespace).reverse.dropWhile
        Char.isWhitespace).reverse)

/-- `fetchVideoInfo` (App.tsx lines 34-58) as an effect trace, as a function
of the `url` state and of the settled metadata response. -/
def fetchVideoInfo (url : String) (resp : InfoResponse) : List Effect :=
  if jsTrim url == "" then
    [.setError (some "Please enter a YouTube URL")]
  else
    [.setLoading true, .setError none, .setVideoInfo none,
     .fetchGet (API_BASE ++ clientInfoPath url)]
    ++ (if resp.ok then
          [.setVideoInfo (some resp.data)]
        else
          [.setError (some (jsOrElse resp.detail "Failed to fetch video info"))])
    ++ [.setLoading false]

/-- The try-block tail of `handleDownload` after the download response
settles (App.tsx lines 111-127): the non-OK throw, the success navigation,
and the invalid-response throw, each as caught by the handler. -/
def respBranch (resp : DownloadResponse) : List Effect :=
  if resp.ok = false then
    [.setError (some (jsOrElse resp.detail "Download failed")), .setProgress none]
  else if resp.status == some "success" && jsTruthy resp.download_url then
    [.setProgress (some completedProgress),
     .navigate (API_BASE ++ (resp.download_url.getD ""))]
  else
    [.setError (some "Download failed - invalid response"), .setProgress none]

/-- `handleDownload` (App.tsx lines 81-136) as an effect trace: parameters
are the `videoInfo`, `url` and `selectedFormat` state read by the closure,
the numerator of the `Math.random()` draw, the settled download response,
and the `error` state value the closure captured when it was created (the
`finally` block's `if (!error)` reads that stale capture). -/
def handleDownload (vi : Option VideoInfo) (url fmt : String) (rnd : Nat)
    (resp : DownloadResponse) (capturedError : Option String) : List Effect :=
  match vi with
  | none => []
  | some _ =>
    [.setDownloading true, .setError none, .setProgress (some startingProgress),
     .genToken (genClientId rnd),
     .wsOpen (WS_BASE ++ clientWsPath (genClientId rnd)),
     .fetchGet (API_BASE ++ clientDownloadPath url fmt (genClientId rnd))]
    ++ respBranch resp
    ++ [.setDownloading false, .wsClose]
    ++ (if jsTruthy capturedError then [] else [.scheduleClearProgress])

/-- The `ws.onmessage` object spread `{ ...prev, ...data }` (App.tsx
line 97): a field present in the message overrides, an absent one falls back
to `prev` (and to nothing when `prev` is `null`). -/
def spreadMerge (prev : Option PartialProgress) (m : PartialProgress) :
    PartialProgress where
  percent := m.percent.or (prev.bind fun p => p.percent)
  speed := m.speed.or (prev.bind fun p => p.speed)
  eta := m.eta.or (prev.bind fun p => p.eta)
  status := m.status.or (prev.bind fun p => p.status)

/-- The `ws.onmessage` handler (App.tsx lines 94-99): the parsed message
updates `downloadProgress` only when its `status` is `"downloading"` or
`"finished"`. -/
def wsOnMessage (prev : Option PartialProgress) (msg : PartialProgress) :
    Option PartialProgress :=
  if msg.status == some "downloading" || msg.status == some "finished" then
    some (spreadMerge prev msg)
  else
    prev

/-- `getQualityFormats`'s filter predicate (App.tsx line 161):
`f.resolution && f.resolution !== "audio only"`. -/
def qualityKeep (f : VideoFormat) : Bool :=
  jsTruthy f.resolution && !(f.resolution == some "audio only")

/-- `getQualityFormats` (App.tsx lines 157-163). -/
def getQualityFormats (vi : Option VideoInfo) : List VideoFormat :=
  match vi with
  | none => []
  | some v => (v.formats.filter qualityKeep).take 8

/-! ## The Download Orchestrator's event stream (backend, spec §4.3/§5) -/

/-- The four `ProgressEvent` statuses (spec §3). -/
inductive EvStatus where
  | starting
  | downloading
  | finished
  | error
deriving DecidableEq, Repr

/-- A `ProgressEvent` (spec §3):
`{status, percent: 0..100, speedBytesPerSec, etaSeconds}`. -/
structure ProgressEvent where
  status : EvStatus
  percent : Nat
  speedBytesPerSec : Nat
  etaSeconds : Nat
deriving DecidableEq, Repr

/-- A terminal event is a `finished` or an `error` event. -/
def ProgressEvent.terminal (e : ProgressEvent) : Bool :=
  e.status == .finished || e.status == .error

/-- One progress report from the engine's transfer hook: the byte count so
far plus the instantaneous speed and ETA. -/
structure EngineReport where
  bytes : Nat
  speed : Nat
  eta : Nat
deriving DecidableEq, Repr

/-- Percent completed at `b` of `total` bytes. -/
def percentOf (total b : Nat) : Nat := b * 100 / total

/-- Percent reached by the last engine report (0 when none arrived). -/
def lastPercent (total : Nat) (reports : List EngineReport) : Nat :=
  match reports.getLast? with
  | some r => percentOf total r.bytes
  | none => 0

/-- Modelled from the spec: the Download Orchestrator's event stream for one
job — the backend component is not among the repository's source files.  Per
§4.3, each engine progress report is synchronously translated into a
`downloading` event and published; on success a terminal `finished` event is
published, on failure a terminal `error` event; per §5 the hook is driven by
the transfer's monotonically increasing byte count. -/
def orchestrate (total : Nat) (reports : List EngineReport) (ok : Bool) :
    List ProgressEvent :=
  (reports.map fun r =>
    ⟨.downloading, percentOf total r.bytes, r.speed, r.eta⟩)
  ++ [if ok then ⟨.finished, 100, 0, 0⟩
      else ⟨.error, lastPercent total reports, 0, 0⟩]

/-! ## Effect classifiers and sample inputs -/

/-- Is the effect a token draw? -/
def isGenToken : Effect → Bool
  | .genToken _ => true
  | _ => false

/-- Is the effect a WebSocket open? -/
def isWsOpen : Effect → Bool
  | .wsOpen _ => true
  | _ => false

/-- Is the effect an HTTP request? -/
def isFetchGet : Effect → Bool
  | .fetchGet _ => true
  | _ => false

/-- Is the effect a browser navigation? -/
def isNavigate : Effect → Bool
  | .navigate _ => true
  | _ => false

/-- Is the effect the WebSocket close? -/
def isWsClose : Effect → Bool
  | .wsClose => true
  | _ => false

/-- A 1080p video format. -/
def sampleFormat : VideoFormat :=
  ⟨"137", "1080p", "mp4", some "1920x1080", some 1000000, "none", "avc1"⟩

/-- An audio-only format. -/
def sampleAudioFormat : VideoFormat :=
  ⟨"140", "medium", "m4a", some "audio only", some 4000, "mp4a", "none"⟩

/-- Sample resolved metadata. -/
def sampleInfo : VideoInfo :=
  ⟨"vid1", "A Title", "http://thumb", 63, "An Uploader",
   [sampleFormat, sampleAudioFormat]⟩

/-- Sample component state before a handler runs. -/
def initialState : AppState :=
  ⟨false, false, none, some sampleInfo, none⟩

/-- A failing download response with a `detail` body. -/
def failResp : DownloadResponse :=
  ⟨false, none, none, some "boom", none⟩

/-- A successful download response. -/
def okResp : DownloadResponse :=
  ⟨true, some "success", some "/files/v.mp4", none, some "v.mp4"⟩

/-- An OK download response whose body carries no `download_url`. -/
def badOkResp : DownloadResponse :=
  ⟨true, some "success", none, none, some "v.mp4"⟩

/-! ## Facts about the branch after the download response settles -/

/-- The post-response branch performs no token draw. -/
theorem respBranch_countP_genToken (resp : DownloadResponse) :
    (respBranch resp).countP isGenToken = 0 := by
  unfold respBranch
  split
  · rfl
  · split <;> rfl

/-- The post-response branch opens no WebSocket. -/
theorem respBranch_countP_wsOpen (resp : DownloadResponse) :
    (respBranch resp).countP isWsOpen = 0 := by
  unfold respBranch
  split
  · rfl
  · split <;> rfl

/-- The post-response branch issues no HTTP request. -/
theorem respBranch_countP_fetchGet (resp : DownloadResponse) :
    (respBranch resp).countP isFetchGet = 0 := by
  unfold respBranch
  split
  · rfl
  · split <;> rfl

/-- The post-response branch closes no WebSocket. -/
theorem respBranch_countP_wsClose (resp : DownloadResponse) :
    (respBranch resp).countP isWsClose = 0 := by
  unfold respBranch
  split
  · rfl
  · split <;> rfl

/-- The post-response branch is always exactly two effects long. -/
theorem respBranch_pair (resp : DownloadResponse) :
    ∃ a b : Effect, respBranch resp = [a, b] := by
  unfold respBranch
  split
  · exact ⟨_, _, rfl⟩
  · split
    · exact ⟨_, _, rfl⟩
    · exact ⟨_, _, rfl⟩

/-! ## C2 — the generated token is not always non-empty -/

/-- C2 (counterexample): the claim "for every possible value returned by the
random source, the client-generated token is a non-empty string" is false at
concrete draws: for the draw `0` (`(0).toString(36) = "0"`) and for the draw
`2^52`, i.e. the value `0.5` (`(0.5).toString(36) = "0.i"`), `substring(7)`
yields the empty string. -/
theorem genClientId_empty_at_zero_and_half :
    genClientId 0 = "" ∧ genClientId 4503599627370496 = "" := by
  exact ⟨rfl, by decide⟩

/-- C2 (amended): the token is non-empty exactly when the base-36 rendering
of the draw is longer than the 7 characters `substring(7)` removes; draws
whose rendering is at most 7 characters long (such as `0` and `0.5`) yield
the empty token, so the token does not satisfy the server's non-empty format
for every possible draw. -/
theorem genClientId_empty_iff (n : Nat) :
    genClientId n = "" ↔ (jsToString36 n).data.length ≤ 7 := by
  unfold genClientId jsSubstring
  rw [show ∀ l : List Char, (String.mk l = "") ↔ l = [] from ?_,
    List.drop_eq_nil_iff]
  intro l
  constructor
  · intro h
    simpa using congrArg String.data h
  · intro h
    simp [h]

/-! ## C9 — `getQualityFormats` -/

/-- C9: `getQualityFormats` returns `[]` when `videoInfo` is `null`, and
otherwise exactly the first at most 8 formats whose `resolution` is non-null,
non-empty and different from `"audio only"` — an order-preserving subsequence
of `videoInfo.formats`, all of whose entries pass the filter, of length at
most 8. -/
theorem getQualityFormats_spec :
    getQualityFormats none = [] ∧
    ∀ v : VideoInfo,
      getQualityFormats (some v) = (v.formats.filter qualityKeep).take 8 ∧
      (getQualityFormats (some v)).Sublist v.formats ∧
      (getQualityFormats (some v)).all qualityKeep = true ∧
      (getQualityFormats (some v)).length ≤ 8 := by
  refine ⟨rfl, fun v => ⟨rfl, ?_, ?_, ?_⟩⟩
  · exact ((v.formats.filter qualityKeep).take_sublist 8).trans
      (v.formats.filter_sublist)
  · rw [List.all_eq_true]
    intro f hf
    exact List.of_mem_filter (List.mem_of_mem_take hf)
  · exact List.length_take_le 8 (v.formats.filter qualityKeep)

/-! ## C1 — one token per invocation, drawn first, used in both places -/

/-- C1: whenever `handleDownload` proceeds (a `videoInfo` is loaded), its
trace draws exactly one token, at position 3 — before the WebSocket is
opened (position 4) and before the download request is issued (position 5) —
and that same token string is the final path segment of the progress-channel
URL and the `client_id` query parameter of the download request; no other
WebSocket open or HTTP request occurs. -/
theorem handleDownload_one_token (v : VideoInfo) (url fmt : String)
    (rnd : Nat) (resp : DownloadResponse) (cap : Option String) :
    (handleDownload (some v) url fmt rnd resp cap)[3]?
      = some (.genToken (genClientId rnd)) ∧
    (handleDownload (some v) url fmt rnd resp cap)[4]?
      = some (.wsOpen (WS_BASE ++ clientWsPath (genClientId rnd))) ∧
    (handleDownload (some v) url fmt rnd resp cap)[5]?
      = some (.fetchGet
          (API_BASE ++ clientDownloadPath url fmt (genClientId rnd))) ∧
    (handleDownload (some v) url fmt rnd resp cap).countP isGenToken = 1 ∧
    (handleDownload (some v) url fmt rnd resp cap).countP isWsOpen = 1 ∧
    (handleDownload (some v) url fmt rnd resp cap).countP isFetchGet = 1 := by
  refine ⟨by simp [handleDownload], by simp [handleDownload],
    by simp [handleDownload], ?_, ?_, ?_⟩ <;>
    cases hcap : jsTruthy cap <;>
      simp [handleDownload, hcap, List.countP_append, List.countP_cons,
        respBranch_countP_genToken, respBranch_countP_wsOpen,
        respBranch_countP_fetchGet, isGenToken, isWsOpen, isFetchGet]

/-! ## C6 — the WebSocket is closed on every path -/

/-- C6: in every proceeding invocation of `handleDownload` — whatever the
settled download response and however the body branch went — the trace
issues the download request at position 5 and closes the WebSocket exactly
once, at position 9, after the request has settled. -/
theorem handleDownload_always_closes_ws (v : VideoInfo) (url fmt : String)
    (rnd : Nat) (resp : DownloadResponse) (cap : Option String) :
    (handleDownload (some v) url fmt rnd resp cap)[5]?
      = some (.fetchGet
          (API_BASE ++ clientDownloadPath url fmt (genClientId rnd))) ∧
    (handleDownload (some v) url fmt rnd resp cap)[9]? = some .wsClose ∧
    (handleDownload (some v) url fmt rnd resp cap).countP isWsClose = 1 := by
  obtain ⟨a, b, hab⟩ := respBranch_pair resp
  refine ⟨by simp [handleDownload], by simp [handleDownload, hab], ?_⟩
  cases hcap : jsTruthy cap <;>
    simp [handleDownload, hcap, List.countP_append, List.countP_cons,
      respBranch_countP_wsClose, isWsClose]

/-! ## C4 — the success path -/

/-- C4: when the download response is OK with body `status: "success"` and a
(truthy) `download_url`, the replayed trace leaves `downloadProgress` at
`{percent: 100, status: "completed"}` and navigates the browser to
`API_BASE ++ download_url`; when the response is OK but either field is
missing, the handler takes the failure path: the error becomes
`"Download failed - invalid response"`, the progress is reset and no
navigation happens. -/
theorem handleDownload_success_navigates (v : VideoInfo) (url fmt : String)
    (rnd : Nat) (cap : Option String) (st : AppState)
    (resp : DownloadResponse) (d : String) :
    (resp.ok = true → resp.status = some "success" →
      resp.download_url = some d → (d == "") = false →
      (runEffects st
          (handleDownload (some v) url fmt rnd resp cap)).downloadProgress
        = some completedProgress ∧
      completedProgress.percent = some 100 ∧
      completedProgress.status = some "completed" ∧
      Effect.navigate (API_BASE ++ d)
        ∈ handleDownload (some v) url fmt rnd resp cap) ∧
    (resp.ok = true → (resp.status = none ∨ resp.download_url = none) →
      (runEffects st (handleDownload (some v) url fmt rnd resp cap)).error
        = some "Download failed - invalid response" ∧
      (runEffects st
          (handleDownload (some v) url fmt rnd resp cap)).downloadProgress
        = none ∧
      (handleDownload (some v) url fmt rnd resp cap).countP isNavigate
        = 0) := by
  constructor
  · intro hok hst hdl hd
    have hdt : jsTruthy (some d) = true := by simp [jsTruthy, hd]
    refine ⟨?_, rfl, rfl, ?_⟩ <;>
      cases hcap : jsTruthy cap <;>
        simp [handleDownload, respBranch, hok, hst, hdl, hdt, hcap,
          runEffects, applyEffect]
  · intro hok hmiss
    have hcond :
        (resp.status == some "success" && jsTruthy resp.download_url)
          = false := by
      rcases hmiss with h | h <;> simp [h, jsTruthy]
    cases hcap : jsTruthy cap <;>
      simp [handleDownload, respBranch, hok, hcond, hcap, runEffects,
        applyEffect, List.countP_append, List.countP_cons, isNavigate]

/-- C4 witness: at a concrete successful response the browser is pointed at
the artifact, and at a concrete OK response with no `download_url` the
progress is reset. -/
theorem handleDownload_success_navigates_witness :
    Effect.navigate (API_BASE ++ "/files/v.mp4")
      ∈ handleDownload (some sampleInfo) "https://y" "best" 1 okResp none ∧
    (runEffects initialState
        (handleDownload (some sampleInfo) "https://y" "best" 1 badOkResp
          none)).downloadProgress = none := by
  constructor
  · exact ((handleDownload_success_navigates sampleInfo "https://y" "best" 1
      none initialState okResp "/files/v.mp4").1 rfl rfl rfl rfl).2.2.2
  · exact ((handleDownload_success_navigates sampleInfo "https://y" "best" 1
      none initialState badOkResp "x").2 rfl (Or.inr rfl)).2.1

/-! ## C5 — the failure path -/

/-- C5: for every non-OK download response, the replayed trace leaves the
visible error at the body's `detail` (at `"Download failed"` when `detail`
is absent), resets `downloadProgress` to `null`, and the trace contains no
navigation effect at all. -/
theorem handleDownload_failure_shows_detail (v : VideoInfo)
    (url fmt : String) (rnd : Nat) (cap : Option String) (st : AppState)
    (resp : DownloadResponse) (hok : resp.ok = false) :
    (∀ dm, resp.detail = some dm → (dm == "") = false →
      (runEffects st (handleDownload (some v) url fmt rnd resp cap)).error
        = some dm) ∧
    (resp.detail = none →
      (runEffects st (handleDownload (some v) url fmt rnd resp cap)).error
        = some "Download failed") ∧
    (runEffects st
        (handleDownload (some v) url fmt rnd resp cap)).downloadProgress
      = none ∧
    (handleDownload (some v) url fmt rnd resp cap).countP isNavigate = 0 := by
  refine ⟨?_, ?_, ?_, ?_⟩
  · intro dm h1 h2
    cases hcap : jsTruthy cap <;>
      simp [handleDownload, respBranch, hok, h1, h2, jsOrElse, hcap,
        runEffects, applyEffect]
  · intro h1
    cases hcap : jsTruthy cap <;>
      simp [handleDownload, respBranch, hok, h1, jsOrElse, hcap,
        runEffects, applyEffect]
  · cases hcap : jsTruthy cap <;>
      simp [handleDownload, respBranch, hok, hcap, runEffects, applyEffect]
  · cases hcap : jsTruthy cap <;>
      simp [handleDownload, respBranch, hok, hcap, List.countP_append,
        List.countP_cons, isNavigate]

/-- C5 witness: a concrete 4xx body `{detail: "boom"}` surfaces `"boom"` and
resets the progress. -/
theorem handleDownload_failure_shows_detail_witness :
    (runEffects initialState
        (handleDownload (some sampleInfo) "https://y" "best" 0 failResp
          none)).error = some "boom" ∧
    (runEffects initialState
        (handleDownload (some sampleInfo) "https://y" "best" 0 failResp
          none)).downloadProgress = none := by
  have h := handleDownload_failure_shows_detail sampleInfo "https://y" "best"
    0 none initialState failResp rfl
  exact ⟨h.1 "boom" rfl rfl, h.2.2.1⟩

/-! ## C10 — `fetchVideoInfo` on a blank URL -/

/-- C10: when the trimmed URL is empty, `fetchVideoInfo`'s whole trace is the
single effect setting the error `"Please enter a YouTube URL"`: no request is
issued and replaying the trace changes neither `loading` nor `videoInfo`. -/
theorem fetchVideoInfo_blank_url (url : String) (resp : InfoResponse)
    (st : AppState) (h : jsTrim url = "") :
    fetchVideoInfo url resp
      = [.setError (some "Please enter a YouTube URL")] ∧
    (fetchVideoInfo url resp).countP isFetchGet = 0 ∧
    (runEffects st (fetchVideoInfo url resp)).loading = st.loading ∧
    (runEffects st (fetchVideoInfo url resp)).videoInfo = st.videoInfo := by
  simp [fetchVideoInfo, h, runEffects, applyEffect, isFetchGet,
    List.countP_cons]

/-- C10 witness: a whitespace-only URL at a concrete state. -/
theorem fetchVideoInfo_blank_url_witness :
    fetchVideoInfo " " ⟨true, sampleInfo, none⟩
      = [.setError (some "Please enter a YouTube URL")] ∧
    (runEffects initialState
        (fetchVideoInfo " " ⟨true, sampleInfo, none⟩)).videoInfo
      = some sampleInfo := by
  have h := fetchVideoInfo_blank_url " " ⟨true, sampleInfo, none⟩
    initialState (by decide)
  exact ⟨h.1, h.2.2.2.trans rfl⟩

/-! ## C8 — the message handler's update gate -/

/-- C8: the `ws.onmessage` handler updates `downloadProgress` only for
messages whose `status` is `"downloading"` or `"finished"`; a `"starting"`
or `"error"` message — in particular a terminal error event — leaves the
displayed progress exactly as it was. -/
theorem wsOnMessage_gates_on_status (prev : Option PartialProgress)
    (msg : PartialProgress) :
    ((msg.status = some "starting" ∨ msg.status = some "error") →
      wsOnMessage prev msg = prev) ∧
    (wsOnMessage prev msg ≠ prev →
      msg.status = some "downloading" ∨ msg.status = some "finished") := by
  constructor
  · rintro (h | h) <;> simp [wsOnMessage, h]
  · intro hne
    by_contra hc
    push_neg at hc
    exact hne (by simp [wsOnMessage, hc.1, hc.2])

/-- C8 witness: a concrete terminal `error` message does not touch the
displayed progress. -/
theorem wsOnMessage_gates_on_status_witness :
    wsOnMessage (some startingProgress)
        ⟨some 50, some 3, some 2, some "error"⟩
      = some startingProgress :=
  (wsOnMessage_gates_on_status (some startingProgress)
    ⟨some 50, some 3, some 2, some "error"⟩).1 (Or.inr rfl)

/-! ## C3 — how the client addresses the server -/

/-- C3 (counterexample): the client does not address the interfaces exactly
as the spec writes them — at concrete inputs, its metadata, channel and
download targets all differ from §6's `/info?url=`, `/ws/{token}` and
`/download?url=…&formatId=…&token=…`. -/
theorem client_paths_differ_from_spec :
    clientInfoPath "a" ≠ specInfoPath "a" ∧
    clientWsPath "abc" ≠ specWsPath "abc" ∧
    clientDownloadPath "a" "best" "abc" ≠ specDownloadPath "a" "best" "abc" := by
  decide

/-- C3 (amended): the client prefixes every path with `/api` and uses
snake_case parameter names — metadata via `GET /api/info?url=<urlencoded>`,
the progress channel at `/api/ws/{token}`, the download via
`GET /api/download?url=<urlencoded>&format_id=<id>&client_id=<token>` — and
on an OK response its success branch reads the body fields `status` and
`download_url` (never `filename`, on which its behaviour does not depend). -/
theorem client_api_paths (v : VideoInfo) (url fmt : String) (rnd : Nat)
    (resp : DownloadResponse) (iresp : InfoResponse) (cap : Option String)
    (d : String) :
    ((jsTrim url == "") = false →
      Effect.fetchGet (API_BASE ++ clientInfoPath url)
        ∈ fetchVideoInfo url iresp) ∧
    Effect.wsOpen (WS_BASE ++ clientWsPath (genClientId rnd))
      ∈ handleDownload (some v) url fmt rnd resp cap ∧
    Effect.fetchGet
        (API_BASE ++ clientDownloadPath url fmt (genClientId rnd))
      ∈ handleDownload (some v) url fmt rnd resp cap ∧
    (∀ f1 f2 : Option String,
      respBranch { resp with filename := f1 }
        = respBranch { resp with filename := f2 }) ∧
    ((d == "") = false →
      respBranch ⟨true, some "success", some d, resp.detail, resp.filename⟩
        = [.setProgress (some completedProgress),
           .navigate (API_BASE ++ d)]) := by
  refine ⟨?_, ?_, ?_, ?_, ?_⟩
  · intro h
    simp [fetchVideoInfo, h]
  · simp [handleDownload]
  · simp [handleDownload]
  · intro f1 f2
    simp [respBranch]
  · intro hd
    simp [respBranch, jsTruthy, hd]

/-- C3 witness: the amended addressing at concrete inputs. -/
theorem client_api_paths_witness :
    Effect.fetchGet (API_BASE ++ clientInfoPath "https://y")
      ∈ fetchVideoInfo "https://y" ⟨true, sampleInfo, none⟩ ∧
    Effect.wsOpen (WS_BASE ++ clientWsPath (genClientId 1))
      ∈ handleDownload (some sampleInfo) "https://y" "best" 1 okResp none := by
  have h := client_api_paths sampleInfo "https://y" "best" 1 okResp
    ⟨true, sampleInfo, none⟩ none "/files/v.mp4"
  exact ⟨h.1 (by decide), h.2.1⟩

/-! ## C7 — the orchestrator's per-job event stream (spec-modelled) -/

/-- Appending one upper bound keeps a `≤`-chain a chain. -/
theorem chain_le_append_singleton {l : List Nat} {x : Nat}
    (hl : List.Chain' (· ≤ ·) l)
    (hx : ∀ a, l.getLast? = some a → a ≤ x) :
    List.Chain' (· ≤ ·) (l ++ [x]) := by
  rw [List.chain'_append]
  refine ⟨hl, List.chain'_singleton x, ?_⟩
  intro a ha y hy
  rw [Option.mem_def] at ha
  simp only [List.head?_cons, Option.mem_def, Option.some.injEq] at hy
  subst hy
  exact hx a ha

/-- C7: for one job whose engine reports carry a monotonically increasing
byte count bounded by the total, the `percent` values of the published event
sequence are non-decreasing, and the sequence contains exactly one terminal
(`finished` or `error`) event, which is its last element — never both
terminals, never neither. -/
theorem orchestrate_stream (total : Nat) (reports : List EngineReport)
    (ok : Bool)
    (hmono : List.Chain' (· ≤ ·) (reports.map EngineReport.bytes))
    (hle : ∀ r ∈ reports, r.bytes ≤ total) :
    List.Chain' (· ≤ ·)
      ((orchestrate total reports ok).map ProgressEvent.percent) ∧
    (orchestrate total reports ok).countP ProgressEvent.terminal = 1 ∧
    ∃ e, (orchestrate total reports ok).getLast? = some e ∧
      e.terminal = true := by
  have hp100 : ∀ r ∈ reports, percentOf total r.bytes ≤ 100 := fun r hr =>
    Nat.div_le_of_le_mul (Nat.mul_le_mul_right 100 (hle r hr))
  have key : (orchestrate total reports ok).map ProgressEvent.percent
      = (reports.map fun r => percentOf total r.bytes)
        ++ [if ok then 100 else lastPercent total reports] := by
    rw [orchestrate, List.map_append, List.map_map]
    cases ok <;> rfl
  refine ⟨?_, ?_, ?_⟩
  · rw [key]
    refine chain_le_append_singleton ?_ ?_
    · rw [List.chain'_map]
      rw [List.chain'_map] at hmono
      exact hmono.imp fun a b h =>
        Nat.div_le_div_right (Nat.mul_le_mul_right 100 h)
    · intro a ha
      rw [List.getLast?_map] at ha
      cases hlast : reports.getLast? with
      | none => rw [hlast] at ha; exact absurd ha (by simp)
      | some r =>
        rw [hlast] at ha
        simp only [Option.map_some', Option.some.injEq] at ha
        subst ha
        cases ok with
        | true => exact hp100 r (List.mem_of_mem_getLast? hlast)
        | false =>
          simp [lastPercent, hlast]
  · rw [orchestrate, List.countP_append]
    have h0 : (reports.map fun r =>
        (⟨.downloading, percentOf total r.bytes, r.speed, r.eta⟩ :
          ProgressEvent)).countP ProgressEvent.terminal = 0 := by
      rw [List.countP_eq_zero]
      intro e he
      simp only [List.mem_map] at he
      obtain ⟨r, _, rfl⟩ := he
      simp [ProgressEvent.terminal]
    rw [h0]
    cases ok <;> rfl
  · refine ⟨(if ok then ⟨.finished, 100, 0, 0⟩
      else ⟨.error, lastPercent total reports, 0, 0⟩ : ProgressEvent),
      ?_, ?_⟩
    · rw [orchestrate]
      exact List.getLast?_concat _
    · cases ok <;> rfl

/-- C7 witness: a concrete two-report successful job: percents are
non-decreasing and exactly one terminal event ends the stream. -/
theorem orchestrate_stream_witness :
    List.Chain' (· ≤ ·)
      ((orchestrate 200 [⟨100, 512, 9⟩, ⟨200, 512, 0⟩] true).map
        ProgressEvent.percent) ∧
    (orchestrate 200 [⟨100, 512, 9⟩, ⟨200, 512, 0⟩] true).countP
        ProgressEvent.terminal = 1 ∧
    ∃ e, (orchestrate 200 [⟨100, 512, 9⟩, ⟨200, 512, 0⟩] true).getLast?
        = some e ∧ e.terminal = true :=
  orchestrate_stream 200 [⟨100, 512, 9⟩, ⟨200, 512, 0⟩] true
    (by simp [List.chain'_cons, List.chain'_singleton]) (by decide)
